import Mathlib

set_option maxRecDepth 10000

/-!
Shallow embedding of the leviso-cheat-guard core (src/lib.rs): the
cheat_bail, cheat_ensure and cheat_check macros and the CheckResult type.

Error propagation of the host (anyhow::Result) is modelled by
Except String; the observable effects of one cheat_check invocation
(the aggregator entries, the println lines and the eprintln lines) are
captured in an explicit CheckState record.
-/

namespace CheatGuard

/-- One recorded check outcome, mirroring the CheckResult enum of the
source: Pass carries the expected description, Fail carries the expected
and the actual descriptions. -/
inductive CheckResult where
  | Pass (expected : String)
  | Fail (expected actual : String)
  deriving DecidableEq, Repr

/-- The passed method of the source: matches the Pass variant. -/
def CheckResult.passed : CheckResult → Bool
  | CheckResult.Pass _ => true
  | CheckResult.Fail _ _ => false

/-- The border of the cheat_bail template: the equals sign repeated 70
times. -/
def border70 : String := String.mk (List.replicate 70 '=')

/-- The border of the cheat_check diagnostic block: the equals sign
repeated 60 times. -/
def border60 : String := String.mk (List.replicate 60 '=')

/-- Numbering of the cheat list, mirroring
iter().enumerate().map of the source: the entry at zero-based
position i is rendered as two spaces, the numeral of i + 1, a dot, a
space and the entry. -/
def numberCheats (i : Nat) : List String → List String
  | [] => []
  | c :: cs => ("  " ++ toString (i + 1) ++ ". " ++ c) :: numberCheats (i + 1) cs

/-- The join of a list of rendered lines with a newline separator,
mirroring join of the source. -/
def joinLines : List String → String
  | [] => ""
  | [s] => s
  | s :: cs => s ++ "\n" ++ joinLines cs

/-- cheats_formatted of the source: the numbered cheat entries joined by
newlines. -/
def formatCheats (cheats : List String) : String :=
  joinLines (numberCheats 0 cheats)

/-- The full report text built by cheat_bail: top border, header line,
border, then PROTECTS, SEVERITY, CHEAT VECTORS, USER CONSEQUENCE and
ERROR blocks, then the bottom border. -/
def cheat_bail_msg (protects severity : String) (cheats : List String)
    (consequence error_msg : String) : String :=
  "\n" ++ border70 ++ "\n=== CHEAT-GUARDED FAILURE ===\n" ++ border70 ++
    "\n\nPROTECTS: " ++ protects ++
    "\nSEVERITY: " ++ severity ++
    "\n\nCHEAT VECTORS:\n" ++ formatCheats cheats ++
    "\n\nUSER CONSEQUENCE:\n" ++ consequence ++
    "\n\nERROR:\n" ++ error_msg ++
    "\n" ++ border70 ++ "\n"

/-- The cheat_bail macro: unconditionally produces the error value whose
payload is the formatted report. -/
def cheat_bail (protects severity : String) (cheats : List String)
    (consequence error_msg : String) : Except String Unit :=
  Except.error (cheat_bail_msg protects severity cheats consequence error_msg)

/-- The cheat_ensure macro: when the condition is false it expands to
cheat_bail with the same arguments, otherwise the block completes with
unit success. -/
def cheat_ensure (cond : Bool) (protects severity : String) (cheats : List String)
    (consequence error_msg : String) : Except String Unit :=
  if !cond then cheat_bail protects severity cheats consequence error_msg
  else Except.ok ()

/-- Observable effects of one cheat_check invocation: the aggregator
entries after the call, the lines written by println (progress stream)
and the lines written by eprintln (diagnostic stream). -/
structure CheckState where
  checks : List (String × CheckResult)
  stdout : List String
  stderr : List String
  deriving DecidableEq, Repr

/-- The cheat_check macro. It always prints one progress line; when the
condition holds it records Pass (expected), otherwise it prints the
diagnostic block (bordered by 60 equals signs) and records
Fail (expected, actual). add_check of the external aggregator is
modelled as appending the named entry. -/
def cheat_check (result : List (String × CheckResult)) (name : String) (cond : Bool)
    (protects severity : String) (cheats : List String)
    (consequence expected actual : String) : CheckState :=
  let progress := "    checking: " ++ name ++ " (protects: " ++ protects ++ ")"
  if cond then
    ⟨result ++ [(name, CheckResult.Pass expected)], [progress], []⟩
  else
    ⟨result ++ [(name, CheckResult.Fail expected actual)], [progress],
      ["\n" ++ border60,
       "CHEAT-GUARDED CHECK FAILED: " ++ name,
       border60,
       "PROTECTS: " ++ protects,
       "SEVERITY: " ++ severity,
       "CHEATS:",
       formatCheats cheats,
       "CONSEQUENCE: " ++ consequence,
       border60]⟩

/-- cheat_check as run inside a fallible caller: the macro body contains
no error-producing or early-return construct, so in the Except model of
the host error channel its expansion always completes successfully with
its effects. -/
def cheat_checkE (result : List (String × CheckResult)) (name : String) (cond : Bool)
    (protects severity : String) (cheats : List String)
    (consequence expected actual : String) : Except String CheckState :=
  Except.ok (cheat_check result name cond protects severity cheats consequence expected actual)

/-- Substring containment, stated on the character data. -/
def strContains (s pat : String) : Prop := pat.data <:+: s.data

instance (s pat : String) : Decidable (strContains s pat) :=
  inferInstanceAs (Decidable (pat.data <:+: s.data))

/-- The report text of the partition scenario of the specification. -/
def partitionScenarioMsg : String :=
  cheat_bail_msg "Disk is partitioned correctly" "CRITICAL"
    ["Accept exit code without verification", "Skip partition check"]
    "No partitions, installation fails silently"
    "Partition vda1 not found"

/-- A string whose character data decomposes around the data of a middle
piece contains that piece. -/
theorem strContains_of_decomp (s mid : String) (u v : List Char)
    (h : s.data = u ++ mid.data ++ v) : strContains s mid :=
  ⟨u, v, h.symm⟩

/-- Numbering preserves the length of the cheat list. -/
theorem numberCheats_length (j : Nat) (l : List String) :
    (numberCheats j l).length = l.length := by
  induction l generalizing j with
  | nil => rfl
  | cons c cs ih => simp [numberCheats, ih]

/-- The entry at position i of the numbered list is the entry at position
i of the cheat list, prefixed by the numeral of j + i + 1. -/
theorem numberCheats_getElem? (j i : Nat) (l : List String) :
    (numberCheats j l)[i]? =
      (l[i]?).map (fun c => "  " ++ toString (j + i + 1) ++ ". " ++ c) := by
  induction l generalizing j i with
  | nil => simp [numberCheats]
  | cons c cs ih =>
    cases i with
    | zero => simp [numberCheats]
    | succ i' =>
      have harith : j + 1 + i' + 1 = j + (i' + 1) + 1 := by omega
      simp only [numberCheats, List.getElem?_cons_succ, ih (j + 1) i', harith]

/-- Every member of a line list is contained in the newline join of the
list. -/
theorem joinLines_contains_of_mem (l : List String) (s : String) (hs : s ∈ l) :
    strContains (joinLines l) s := by
  induction l with
  | nil => simp at hs
  | cons a cs ih =>
    cases cs with
    | nil =>
      have hsa : s = a := by simpa using hs
      subst hsa
      exact ⟨[], [], by simp [joinLines]⟩
    | cons b cs' =>
      rcases List.mem_cons.mp hs with h1 | h2
      · subst h1
        exact ⟨[], ("\n" ++ joinLines (b :: cs')).data,
          by simp [joinLines, String.data_append, List.append_assoc]⟩
      · obtain ⟨u, v, huv⟩ := ih h2
        refine ⟨(a ++ "\n").data ++ u, v, ?_⟩
        have hj : joinLines (a :: b :: cs') = a ++ "\n" ++ joinLines (b :: cs') := rfl
        rw [hj]
        simp only [String.data_append]
        rw [← huv]
        simp [List.append_assoc]

/-- Claim C2: for every metadata bundle and error message, cheat_ensure
with a true condition returns success with no observable side effect,
and cheat_ensure with a false condition produces a failure whose textual
payload is byte-identical to the payload cheat_bail produces with the
same arguments. -/
theorem cheat_ensure_spec (protects severity : String) (cheats : List String)
    (consequence error_msg : String) :
    cheat_ensure true protects severity cheats consequence error_msg = Except.ok ()
    ∧ cheat_ensure false protects severity cheats consequence error_msg
      = cheat_bail protects severity cheats consequence error_msg
    ∧ cheat_ensure false protects severity cheats consequence error_msg
      = Except.error (cheat_bail_msg protects severity cheats consequence error_msg) :=
  ⟨rfl, rfl, rfl⟩

/-- Claim C5: for every invocation of cheat_check with a true condition,
exactly one Pass (expected) entry keyed by the name is appended to the
aggregator and nothing is written to the diagnostic stream. -/
theorem cheat_check_pass_spec (result : List (String × CheckResult)) (name : String)
    (protects severity : String) (cheats : List String)
    (consequence expected actual : String) :
    (cheat_check result name true protects severity cheats consequence expected actual).checks
      = result ++ [(name, CheckResult.Pass expected)]
    ∧ (cheat_check result name true protects severity cheats consequence expected actual).stderr
      = [] :=
  ⟨rfl, rfl⟩

/-- Claim C6: for every invocation and for both values of the condition,
cheat_check returns normally to its caller: run in the Except model of
the host error channel it always yields success with its effects and is
never an error. -/
theorem cheat_check_total (result : List (String × CheckResult)) (name : String)
    (cond : Bool) (protects severity : String) (cheats : List String)
    (consequence expected actual : String) :
    cheat_checkE result name cond protects severity cheats consequence expected actual
      = Except.ok (cheat_check result name cond protects severity cheats consequence expected actual)
    ∧ ∀ msg : String,
        cheat_checkE result name cond protects severity cheats consequence expected actual
          ≠ Except.error msg :=
  ⟨rfl, fun msg h => by simp [cheat_checkE] at h⟩

/-- Claim C8: for every invocation of cheat_check, independent of the
condition, exactly one progress line is written to the progress stream,
and that line contains both the name and the protects text. -/
theorem cheat_check_progress_spec (result : List (String × CheckResult)) (name : String)
    (cond : Bool) (protects severity : String) (cheats : List String)
    (consequence expected actual : String) :
    (cheat_check result name cond protects severity cheats consequence expected actual).stdout
      = ["    checking: " ++ name ++ " (protects: " ++ protects ++ ")"]
    ∧ ∀ l ∈ (cheat_check result name cond protects severity cheats consequence expected actual).stdout,
        strContains l name ∧ strContains l protects := by
  have hst : (cheat_check result name cond protects severity cheats consequence expected actual).stdout
      = ["    checking: " ++ name ++ " (protects: " ++ protects ++ ")"] := by
    cases cond <;> rfl
  refine ⟨hst, ?_⟩
  intro l hl
  rw [hst] at hl
  have hl' : l = "    checking: " ++ name ++ " (protects: " ++ protects ++ ")" := by
    simpa using hl
  subst hl'
  constructor
  · refine strContains_of_decomp _ _ "    checking: ".data
      ((" (protects: " ++ protects ++ ")").data) ?_
    simp [String.data_append, List.append_assoc]
  · refine strContains_of_decomp _ _
      (("    checking: " ++ name ++ " (protects: ").data) (")".data) ?_
    simp [String.data_append, List.append_assoc]

/-- Claim C9: the passed predicate returns true exactly on Pass values,
whatever strings the value carries. -/
theorem checkResult_passed_iff (r : CheckResult) :
    r.passed = true ↔ ∃ s, r = CheckResult.Pass s := by
  cases r with
  | Pass s => simp [CheckResult.passed]
  | Fail e a => simp [CheckResult.passed]

/-- Claim C10: two cheat_check invocations that agree on the incoming
aggregator, the condition, the name, the expected and the actual strings
but differ arbitrarily in protects, severity, cheats and consequence
record identical aggregator contents: the metadata fields never
influence the recorded outcome. -/
theorem cheat_check_metadata_noninterference (result : List (String × CheckResult))
    (name : String) (cond : Bool) (p1 sv1 co1 p2 sv2 co2 : String)
    (ch1 ch2 : List String) (expected actual : String) :
    (cheat_check result name cond p1 sv1 ch1 co1 expected actual).checks
      = (cheat_check result name cond p2 sv2 ch2 co2 expected actual).checks := by
  cases cond <;> rfl

/-- Claim C1, counterexample: at a concrete invocation, the diagnostic
block written by cheat_check on a false condition starts with the
60-equals border, which differs from the 70-equals border, and no line
of the block, nor the block as a whole joined by newlines, contains the
70-equals border: the block does not use the 70-equals bordered
template. -/
theorem check_diag_lacks_border70 :
    (cheat_check [] "Partition table created" false "Disk has correct partitions" "CRITICAL"
        ["Accept any output", "Skip verification"] "No partitions, installation fails"
        "Partition vda1 exists" "sfdisk output: none").stderr.head? = some ("\n" ++ border60)
    ∧ border60 ≠ border70
    ∧ (∀ l ∈ (cheat_check [] "Partition table created" false "Disk has correct partitions" "CRITICAL"
        ["Accept any output", "Skip verification"] "No partitions, installation fails"
        "Partition vda1 exists" "sfdisk output: none").stderr, ¬ strContains l border70)
    ∧ ¬ strContains (joinLines (cheat_check [] "Partition table created" false
        "Disk has correct partitions" "CRITICAL" ["Accept any output", "Skip verification"]
        "No partitions, installation fails" "Partition vda1 exists"
        "sfdisk output: none").stderr) border70 := by
  decide

/-- Claim C1, amended: failures produced by cheat_bail and by
cheat_ensure on a false condition carry one and the same five-field
report embedded in the fixed bordered template whose border is 70
repeated equals characters used identically at top and bottom; the
diagnostic block written by cheat_check on a false condition is a
separate rendering, bordered by 60 repeated equals characters, that
carries the name, protects, severity, the numbered cheat list and the
consequence. -/
theorem failure_report_shapes (protects severity : String) (cheats : List String)
    (consequence error_msg : String) (result : List (String × CheckResult))
    (name expected actual : String) :
    cheat_bail protects severity cheats consequence error_msg
      = Except.error (cheat_bail_msg protects severity cheats consequence error_msg)
    ∧ cheat_ensure false protects severity cheats consequence error_msg
      = cheat_bail protects severity cheats consequence error_msg
    ∧ cheat_bail_msg protects severity cheats consequence error_msg
      = "\n" ++ border70 ++ "\n=== CHEAT-GUARDED FAILURE ===\n" ++ border70 ++
          "\n\nPROTECTS: " ++ protects ++ "\nSEVERITY: " ++ severity ++
          "\n\nCHEAT VECTORS:\n" ++ formatCheats cheats ++
          "\n\nUSER CONSEQUENCE:\n" ++ consequence ++
          "\n\nERROR:\n" ++ error_msg ++ "\n" ++ border70 ++ "\n"
    ∧ border70.length = 70
    ∧ (cheat_check result name false protects severity cheats consequence expected actual).stderr
      = ["\n" ++ border60,
         "CHEAT-GUARDED CHECK FAILED: " ++ name,
         border60,
         "PROTECTS: " ++ protects,
         "SEVERITY: " ++ severity,
         "CHEATS:",
         formatCheats cheats,
         "CONSEQUENCE: " ++ consequence,
         border60]
    ∧ border60.length = 60 :=
  ⟨rfl, rfl, rfl, by decide, rfl, by decide⟩

/-- Claim C3: for every metadata bundle with a non-empty cheat list,
cheat_bail never returns normally and its payload is exactly the
formatted report; for the partition scenario arguments the report text
contains the PROTECTS, SEVERITY and numbered cheat lines, the
CONSEQUENCE label followed by the consequence text and the ERROR label
followed by the error text. -/
theorem cheat_bail_spec (protects severity : String) (cheats : List String)
    (consequence error_msg : String) (h : cheats ≠ []) :
    (∀ u : Unit, cheat_bail protects severity cheats consequence error_msg ≠ Except.ok u)
    ∧ cheat_bail protects severity cheats consequence error_msg
      = Except.error (cheat_bail_msg protects severity cheats consequence error_msg)
    ∧ strContains partitionScenarioMsg "\nPROTECTS: Disk is partitioned correctly\n"
    ∧ strContains partitionScenarioMsg "\nSEVERITY: CRITICAL\n"
    ∧ strContains partitionScenarioMsg "\n  1. Accept exit code without verification\n"
    ∧ strContains partitionScenarioMsg "\n  2. Skip partition check\n"
    ∧ strContains partitionScenarioMsg "CONSEQUENCE:\nNo partitions, installation fails silently\n"
    ∧ strContains partitionScenarioMsg "ERROR:\nPartition vda1 not found\n" := by
  refine ⟨fun u hu => by simp [cheat_bail] at hu, rfl, ?_, ?_, ?_, ?_, ?_, ?_⟩ <;> decide

/-- Witness for claim C3 at the partition scenario arguments. -/
theorem cheat_bail_spec_witness :
    (["Accept exit code without verification", "Skip partition check"] : List String) ≠ []
    ∧ ((∀ u : Unit, cheat_bail "Disk is partitioned correctly" "CRITICAL"
          ["Accept exit code without verification", "Skip partition check"]
          "No partitions, installation fails silently" "Partition vda1 not found"
          ≠ Except.ok u)
      ∧ cheat_bail "Disk is partitioned correctly" "CRITICAL"
          ["Accept exit code without verification", "Skip partition check"]
          "No partitions, installation fails silently" "Partition vda1 not found"
        = Except.error (cheat_bail_msg "Disk is partitioned correctly" "CRITICAL"
            ["Accept exit code without verification", "Skip partition check"]
            "No partitions, installation fails silently" "Partition vda1 not found")
      ∧ strContains partitionScenarioMsg "\nPROTECTS: Disk is partitioned correctly\n"
      ∧ strContains partitionScenarioMsg "\nSEVERITY: CRITICAL\n"
      ∧ strContains partitionScenarioMsg "\n  1. Accept exit code without verification\n"
      ∧ strContains partitionScenarioMsg "\n  2. Skip partition check\n"
      ∧ strContains partitionScenarioMsg "CONSEQUENCE:\nNo partitions, installation fails silently\n"
      ∧ strContains partitionScenarioMsg "ERROR:\nPartition vda1 not found\n") :=
  ⟨by decide,
   cheat_bail_spec "Disk is partitioned correctly" "CRITICAL"
     ["Accept exit code without verification", "Skip partition check"]
     "No partitions, installation fails silently" "Partition vda1 not found" (by decide)⟩

/-- Claim C4: for every invocation of cheat_check with a false
condition, exactly one Fail (expected, actual) entry keyed by the name
is appended to the aggregator, and the diagnostic stream receives the
bordered block carrying the name, protects, severity, the numbered
cheat list and the consequence. -/
theorem cheat_check_fail_spec (result : List (String × CheckResult)) (name : String)
    (protects severity : String) (cheats : List String)
    (consequence expected actual : String) :
    (cheat_check result name false protects severity cheats consequence expected actual).checks
      = result ++ [(name, CheckResult.Fail expected actual)]
    ∧ (cheat_check result name false protects severity cheats consequence expected actual).stderr
      = ["\n" ++ border60,
         "CHEAT-GUARDED CHECK FAILED: " ++ name,
         border60,
         "PROTECTS: " ++ protects,
         "SEVERITY: " ++ severity,
         "CHEATS:",
         formatCheats cheats,
         "CONSEQUENCE: " ++ consequence,
         border60]
    ∧ ("CHEAT-GUARDED CHECK FAILED: " ++ name)
        ∈ (cheat_check result name false protects severity cheats consequence expected actual).stderr
    ∧ ("PROTECTS: " ++ protects)
        ∈ (cheat_check result name false protects severity cheats consequence expected actual).stderr
    ∧ ("SEVERITY: " ++ severity)
        ∈ (cheat_check result name false protects severity cheats consequence expected actual).stderr
    ∧ formatCheats cheats
        ∈ (cheat_check result name false protects severity cheats consequence expected actual).stderr
    ∧ ("CONSEQUENCE: " ++ consequence)
        ∈ (cheat_check result name false protects severity cheats consequence expected actual).stderr := by
  refine ⟨rfl, rfl, ?_, ?_, ?_, ?_, ?_⟩ <;> simp [cheat_check]

/-- Claim C7: for every cheat list and every valid zero-based position
i, the numbered rendering keeps the length, its entry at position i is
the input entry at position i prefixed by the numeral of i + 1, and the
joined rendering contains that prefixed entry. -/
theorem cheat_numbering_spec (cheats : List String) (i : Nat) (h : i < cheats.length) :
    (numberCheats 0 cheats).length = cheats.length
    ∧ (numberCheats 0 cheats)[i]? = some ("  " ++ toString (i + 1) ++ ". " ++ cheats[i])
    ∧ formatCheats cheats = joinLines (numberCheats 0 cheats)
    ∧ strContains (formatCheats cheats) ("  " ++ toString (i + 1) ++ ". " ++ cheats[i]) := by
  have hget : (numberCheats 0 cheats)[i]? = some ("  " ++ toString (i + 1) ++ ". " ++ cheats[i]) := by
    rw [numberCheats_getElem?, List.getElem?_eq_getElem h]
    simp
  have hmem : ("  " ++ toString (i + 1) ++ ". " ++ cheats[i]) ∈ numberCheats 0 cheats :=
    List.getElem?_mem hget
  exact ⟨numberCheats_length 0 cheats, hget, rfl, joinLines_contains_of_mem _ _ hmem⟩

/-- Witness for claim C7 at the partition scenario cheat list and the
second position. -/
theorem cheat_numbering_spec_witness :
    1 < (["Accept exit code without verification", "Skip partition check"] : List String).length
    ∧ ((numberCheats 0 ["Accept exit code without verification", "Skip partition check"]).length
        = (["Accept exit code without verification", "Skip partition check"] : List String).length
      ∧ (numberCheats 0 ["Accept exit code without verification", "Skip partition check"])[1]?
        = some ("  " ++ toString (1 + 1) ++ ". " ++
            (["Accept exit code without verification", "Skip partition check"] : List String)[1])
      ∧ formatCheats ["Accept exit code without verification", "Skip partition check"]
        = joinLines (numberCheats 0 ["Accept exit code without verification", "Skip partition check"])
      ∧ strContains (formatCheats ["Accept exit code without verification", "Skip partition check"])
          ("  " ++ toString (1 + 1) ++ ". " ++
            (["Accept exit code without verification", "Skip partition check"] : List String)[1])) :=
  ⟨by decide,
   cheat_numbering_spec ["Accept exit code without verification", "Skip partition check"] 1
     (by decide)⟩

end CheatGuard
